import Mathlib

/-!
Verification of the result-aggregation and remediation pipeline of the
accessibility-checker repository: the Express endpoint that runs the two
scanner engines (axe-core and pa11y), the React component that merges and
renders their results, and the Groq-backed remediation client.

The definitions below are shallow embeddings of the JavaScript source:
  - the server handler app.post of /api/test in the backend file,
  - the functions getAISolution, getTargetAudience,
    performAccessibilityTest, handleGetSolution and the per-violation
    node rendering in accessibilityAnalyzer.jsx.
JavaScript objects with possibly-missing fields are modelled with Option;
JavaScript falsy-or-default idioms (x || y) are modelled explicitly at
each use site.
-/

set_option maxHeartbeats 1000000

/-- A DOM node reference as carried inside a violation record: the code
reads the fields target and html, either of which may be absent. -/
structure NodeJS where
  target : Option String
  html : Option String
deriving Repr, DecidableEq

/-- A violation record in the unified (axe-like) shape used by the
frontend: id, description, impact (possibly absent), nodes (the whole
field may be absent, as on raw objects), and context (present on raw
pa11y-shaped objects, read by the fallback paths of the component). -/
structure ViolationJS where
  id : String
  description : String
  impact : Option String
  nodes : Option (List NodeJS)
  context : Option String
deriving Repr, DecidableEq

/-- A passed-rule record: id and description, as rendered by the passes
list of the component. -/
structure PassJS where
  id : String
  description : String
deriving Repr, DecidableEq

/-- The fulfilled value of runAxe: an axe-core result with violations
and passes. -/
structure AxeResult where
  violations : List ViolationJS
  passes : List PassJS
deriving Repr, DecidableEq

/-- One pa11y issue record: code, message, type (error, warning or
notice in practice), selector and context. -/
structure Pa11yIssue where
  code : String
  message : String
  type : String
  selector : String
  context : String
deriving Repr, DecidableEq

/-- The fulfilled value of the pa11y call: issues, plus an optional
passes field (real pa11y results do not carry one, hence the Option). -/
structure Pa11yResult where
  issues : List Pa11yIssue
  passes : Option (List PassJS)
deriving Repr, DecidableEq

/-- The axe slot of processedResults in the /api/test handler: either
the fulfilled result (error and details absent) or the sentinel object
with error and details set and empty violations and passes. -/
structure ProcessedAxe where
  error : Option String
  details : Option String
  violations : List ViolationJS
  passes : List PassJS
deriving Repr, DecidableEq

/-- The pa11y slot of processedResults: either the fulfilled result or
the sentinel object with error and details set, empty issues, and an
explicit empty passes list. -/
structure ProcessedPa11y where
  error : Option String
  details : Option String
  issues : List Pa11yIssue
  passes : Option (List PassJS)
deriving Repr, DecidableEq

/-- Outcome of one Promise.allSettled slot: fulfilled with a value, or
rejected with a reason whose message may be absent. -/
def SettledOutcome (α : Type) : Type := Except (Option String) α

/-- The JavaScript falsy-default idiom x or-else d on a string that may
be absent: the default is taken both when x is absent and when x is the
empty string, since the empty string is falsy. -/
def orDefault (x : Option String) (d : String) : String :=
  match x with
  | none => d
  | some s => if s = "" then d else s

/-- The axe branch of processedResults: a fulfilled outcome is passed
through, a rejected one becomes the sentinel with the fixed error text
and details equal to the reason message, with the fixed fallback text
substituted when that message is absent or empty (the falsy-default
check of the source). -/
def processAxe (o : SettledOutcome AxeResult) : ProcessedAxe :=
  match o with
  | Except.ok v => ⟨none, none, v.violations, v.passes⟩
  | Except.error reason =>
      ⟨some "Axe-core test failed", some (orDefault reason "Unknown error"),
        [], []⟩

/-- The pa11y branch of processedResults, analogous to processAxe; the
sentinel carries an explicit empty passes list. -/
def processPa11y (o : SettledOutcome Pa11yResult) : ProcessedPa11y :=
  match o with
  | Except.ok v => ⟨none, none, v.issues, v.passes⟩
  | Except.error reason =>
      ⟨some "Pa11y test failed", some (orDefault reason "Unknown error"),
        [], some []⟩

/-- Length of the sublist of violations whose impact field strictly
equals the given severity string, as computed by the filter-then-length
expressions of the summary block. -/
def countImpact (vs : List ViolationJS) (s : String) : Nat :=
  (vs.filter (fun v => v.impact = some s)).length

/-- Length of the sublist of pa11y issues whose type strictly equals the
given string, as computed by the filter-then-length expressions of the
summary block. -/
def countType (is : List Pa11yIssue) (t : String) : Nat :=
  (is.filter (fun i => i.type = t)).length

/-- The summary object built by the /api/test handler. It has exactly
three counters: the source computes no minor field. -/
structure SummaryJS where
  critical : Nat
  serious : Nat
  moderate : Nat
deriving Repr, DecidableEq

/-- The summary computation of the handler: each counter adds an
axe-side filter count and a pa11y-side filter count, each guarded to
zero when that slot carries an error marker. -/
def mkSummary (axe : ProcessedAxe) (pa11y : ProcessedPa11y) : SummaryJS :=
  { critical :=
      (if axe.error.isSome then 0 else countImpact axe.violations "critical") +
      (if pa11y.error.isSome then 0 else countType pa11y.issues "error"),
    serious :=
      (if axe.error.isSome then 0 else countImpact axe.violations "serious") +
      (if pa11y.error.isSome then 0 else countType pa11y.issues "warning"),
    moderate :=
      (if axe.error.isSome then 0 else countImpact axe.violations "moderate") +
      (if pa11y.error.isSome then 0 else countType pa11y.issues "notice") }

/-- A response of the /api/test handler: a 400 rejection with an error
message, a 200 body with both processed slots and the summary, or the
500 branch of the outer catch block. -/
inductive TestResponse where
  | badRequest (error : String)
  | ok (axe : ProcessedAxe) (pa11y : ProcessedPa11y) (summary : SummaryJS)
  | serverError (error : String) (details : String)
deriving Repr, DecidableEq

/-- HTTP status of a TestResponse. -/
def statusOf : TestResponse → Nat
  | TestResponse.badRequest _ => 400
  | TestResponse.ok _ _ _ => 200
  | TestResponse.serverError _ _ => 500

/-- The /api/test handler. The url field of the body may be absent; the
JavaScript check if not url also rejects the empty string. URL parsing
is abstracted by the urlValid predicate (new URL throwing models as
false). The two engine outcomes are the Promise.allSettled slots; since
allSettled never rejects, the outer catch (the serverError branch) is
unreachable from engine failure. -/
def handleTest (url : Option String) (urlValid : String → Bool)
    (axeOutcome : SettledOutcome AxeResult)
    (pa11yOutcome : SettledOutcome Pa11yResult) : TestResponse :=
  match url with
  | none => TestResponse.badRequest "URL is required"
  | some u =>
      if u = "" then TestResponse.badRequest "URL is required"
      else if urlValid u then
        let axe := processAxe axeOutcome
        let p := processPa11y pa11yOutcome
        TestResponse.ok axe p (mkSummary axe p)
      else TestResponse.badRequest "Invalid URL format"

/-- Normalization of one pa11y issue into the unified violation shape,
from the formattedResults construction in performAccessibilityTest: the
nested ternary maps type error to critical, warning to serious, and
anything else to moderate, and builds a single node from the issue
selector and context. The object literal has no context field, so the
modelled context is absent. -/
def normalizeB (issue : Pa11yIssue) : ViolationJS :=
  { id := issue.code,
    description := issue.message,
    impact := some (if issue.type = "error" then "critical"
                    else if issue.type = "warning" then "serious"
                    else "moderate"),
    nodes := some [⟨some issue.selector, some issue.context⟩],
    context := none }

/-- The formatted results assembled by performAccessibilityTest from the
/api/test response body: axe violations followed by the normalized
pa11y issues, axe passes followed by the pa11y passes list defaulted to
empty, and the server summary passed through unchanged. -/
structure FormattedResults where
  violations : List ViolationJS
  passes : List PassJS
  summary : SummaryJS
deriving Repr, DecidableEq

/-- The body of formattedResults in performAccessibilityTest. -/
def formatResults (axe : ProcessedAxe) (pa11y : ProcessedPa11y)
    (summary : SummaryJS) : FormattedResults :=
  { violations := axe.violations ++ pa11y.issues.map normalizeB,
    passes := axe.passes ++ pa11y.passes.getD [],
    summary := summary }

/-- One element of the per-violation node iteration in the component:
either a real node record, or the violation object itself, which the
JavaScript fallback violation.nodes or [violation] substitutes when the
nodes field is absent. -/
inductive DisplayNode where
  | fromNode (n : NodeJS)
  | fromViolation (v : ViolationJS)
deriving Repr, DecidableEq

/-- The sequence iterated by (violation.nodes or [violation]).map in the
render: when nodes is present (even empty, since an empty array is
truthy in JavaScript) it is iterated as-is; only an absent nodes field
triggers the single-element fallback. -/
def displayedNodes (v : ViolationJS) : List DisplayNode :=
  match v.nodes with
  | some ns => ns.map DisplayNode.fromNode
  | none => [DisplayNode.fromViolation v]

/-- The cache key built inside getAISolution: the issue id, a dash, and
the first 20 characters of the description (substring 0 20). -/
def getAISolutionKey (issue description : String) : String :=
  issue ++ "-" ++ description.take 20

/-- The cache key built inside handleGetSolution and the render: the
violation id, a dash, and the decimal node index. -/
def handleGetSolutionKey (id : String) (nodeIndex : Nat) : String :=
  id ++ "-" ++ toString nodeIndex

/-- The remediation cache key as the specification describes it: the
triple of rule id, the first 20 characters of the description, and the
node index. Stated from the spec wording for comparison with the two
key functions the source actually uses. -/
def specRemediationKey (ruleId description : String) (nodeIndex : Nat) :
    String × String × Nat :=
  (ruleId, description.take 20, nodeIndex)

/-- One chunk of the Groq streaming response; the expression
chunk.choices[0]?.delta?.content may be absent, in which case the code
substitutes the empty string. -/
structure StreamChunk where
  content : Option String
deriving Repr, DecidableEq

/-- The string appended for one chunk: its content or the empty
string. -/
def contentOf (c : StreamChunk) : String := c.content.getD ""

/-- Outcome of the streaming request: it either completes after
delivering its chunks, or raises after delivering some of them. -/
inductive StreamOutcome where
  | completed (chunks : List StreamChunk)
  | errored (delivered : List StreamChunk) (message : String)
deriving Repr, DecidableEq

/-- The non-streaming chat completion response; the expression
response.choices[0]?.message?.content may be absent. -/
structure ChatResponse where
  content : Option String
deriving Repr, DecidableEq

/-- The accumulation of the streaming loop: streamedContent starts
empty and each chunk appends its content. -/
def accumulate (chunks : List StreamChunk) : String :=
  chunks.foldl (fun acc c => acc ++ contentOf c) ""

/-- One iteration of the streaming loop, tracking both the accumulated
buffer and the list of intermediate states published via setSolutions
(one state per chunk, published after the append). -/
def streamStep (acc : String × List String) (c : StreamChunk) :
    String × List String :=
  (acc.1 ++ contentOf c, acc.2 ++ [acc.1 ++ contentOf c])

/-- The whole streaming loop: final buffer and published states. -/
def streamRun (chunks : List StreamChunk) : String × List String :=
  chunks.foldl streamStep ("", [])

/-- The value returned by getAISolution after the Groq client is set
up: on stream completion, the accumulated streamedContent; on a stream
error, the fallback non-streaming content with the fixed placeholder
substituted when that content is absent or empty (the falsy-default
check of the source), or a rethrown error when the fallback itself
fails (the outer catch prefixes the fixed text). -/
def getAISolutionText (stream : StreamOutcome)
    (fallback : Except String ChatResponse) : Except String String :=
  match stream with
  | StreamOutcome.completed _chunks => Except.ok (accumulate _chunks)
  | StreamOutcome.errored _ _ =>
      match fallback with
      | Except.ok r => Except.ok (orDefault r.content "No response generated")
      | Except.error e => Except.error ("Failed to get AI solution: " ++ e)

/-- The intermediate states published via setSolutions by the streaming
loop of getAISolution before it returns or raises: one state per
delivered chunk, whether or not the stream later completed. -/
def streamStatesOf (stream : StreamOutcome) : List String :=
  match stream with
  | StreamOutcome.completed chunks => (streamRun chunks).2
  | StreamOutcome.errored delivered _ => (streamRun delivered).2

/-- The ordered list of cache writes (key, value) performed by one run
of handleGetSolution that got past the cache check: the streaming loop
writes each intermediate state under the getAISolution key, the
non-streaming fallback writes its content (or the placeholder) under
the same key, and handleGetSolution itself then writes the returned
text, or the caught error text, under its own id-nodeIndex key. -/
def solutionWrites (v : ViolationJS) (nodeIndex : Nat)
    (stream : StreamOutcome) (fallback : Except String ChatResponse) :
    List (String × String) :=
  let gKey := getAISolutionKey v.id v.description
  let hKey := handleGetSolutionKey v.id nodeIndex
  let innerWrites :=
    (streamStatesOf stream).map (fun s => (gKey, s)) ++
      (match stream, fallback with
       | StreamOutcome.errored _ _, Except.ok r =>
           [(gKey, orDefault r.content "No response generated")]
       | _, _ => [])
  match getAISolutionText stream fallback with
  | Except.ok txt => innerWrites ++ [(hKey, txt)]
  | Except.error e => innerWrites ++ [(hKey, "Error getting solution: " ++ e)]

/-- The cache key consulted by the guard at the top of handleGetSolution
(and by every render-side read of the solutions map). -/
def solutionReadKey (v : ViolationJS) (nodeIndex : Nat) : String :=
  handleGetSolutionKey v.id nodeIndex

/-- The static rule-id-to-audience table of getTargetAudience, as the
association list of the JavaScript object literal (keys are unique, so
association-list lookup models object property lookup exactly). -/
def audienceMap : List (String × List String) :=
  [("color-contrast", ["Visual impairments", "Low vision", "Color blindness"]),
   ("image-alt", ["Blind users", "Screen reader users", "Low bandwidth users"]),
   ("label", ["Screen reader users", "Keyboard users", "Cognitive disabilities"]),
   ("heading-order", ["Screen reader users", "Cognitive disabilities", "Navigation difficulties"]),
   ("link-name", ["Screen reader users", "Cognitive disabilities", "Motor disabilities"]),
   ("button-name", ["Screen reader users", "Voice control users", "Cognitive disabilities"]),
   ("aria-required-attr", ["Screen reader users", "Assistive technology users"]),
   ("keyboard-navigation", ["Motor disabilities", "Keyboard-only users", "Screen reader users"]),
   ("focus-management", ["Keyboard users", "Motor disabilities", "Cognitive disabilities"]),
   ("landmark-roles", ["Screen reader users", "Navigation difficulties", "Cognitive disabilities"]),
   ("document-title", ["Screen reader users", "Search engine users", "Cognitive disabilities"]),
   ("html-has-lang", ["Screen reader users", "Translation software users"]),
   ("bypass", ["Keyboard users", "Screen reader users", "Motor disabilities"]),
   ("page-has-heading-one", ["Screen reader users", "SEO", "Cognitive disabilities"]),
   ("list", ["Screen reader users", "Cognitive disabilities"]),
   ("definition-list", ["Screen reader users", "Cognitive disabilities"]),
   ("dlitem", ["Screen reader users", "Cognitive disabilities"]),
   ("listitem", ["Screen reader users", "Cognitive disabilities"]),
   ("meta-refresh", ["Cognitive disabilities", "Motor disabilities", "Seizure disorders"]),
   ("meta-viewport", ["Mobile users", "Zoom users", "Low vision users"]),
   ("region", ["Screen reader users", "Keyboard navigation users"]),
   ("skip-link", ["Keyboard users", "Screen reader users"]),
   ("tabindex", ["Keyboard users", "Screen reader users"]),
   ("valid-lang", ["Screen reader users", "Translation software users"])]

/-- The getTargetAudience lookup: audienceMap[issue], absent for keys
outside the table. -/
def getTargetAudience (issue : String) : Option (List String) :=
  audienceMap.lookup issue

/-- The severity mapping exactly as the specification states it: a
partial map defined on the three pa11y issue types and nowhere else.
Stated from the spec wording for comparison with the nested ternary the
source uses. -/
def severityMapSpec (t : String) : Option String :=
  if t = "error" then some "critical"
  else if t = "warning" then some "serious"
  else if t = "notice" then some "moderate"
  else none

/-! ### Helper lemmas -/

/-- Appending a string to a join of a cons. -/
theorem join_cons (a : String) (l : List String) :
    String.join (a :: l) = a ++ String.join l := by
  apply String.ext
  simp [String.join_eq, String.data_append]

/-- The join of the empty list of strings. -/
theorem join_nil : String.join [] = "" := rfl

/-- The left fold of string appends over chunk contents, with a general
starting accumulator, equals the accumulator followed by the join. -/
theorem foldl_append_eq_join (l : List StreamChunk) (acc : String) :
    l.foldl (fun a c => a ++ contentOf c) acc =
      acc ++ String.join (l.map contentOf) := by
  induction l generalizing acc with
  | nil => simp [String.join]
  | cons c cs ih =>
      simp only [List.foldl_cons, List.map_cons, join_cons, ih,
        String.append_assoc]

/-- The accumulated streamed content is the join of the chunk
contents. -/
theorem accumulate_eq_join (chunks : List StreamChunk) :
    accumulate chunks = String.join (chunks.map contentOf) := by
  have h := foldl_append_eq_join chunks ""
  simpa [accumulate, String.empty_append] using h

/-- Generalized unrolling of the streaming loop: from any starting
buffer and published-state list, the loop ends with the buffer extended
by the join of all contents, and publishes one state per chunk, each
the buffer extended by the join of the first chunks. -/
theorem streamRun_foldl (chunks : List StreamChunk) (acc : String)
    (sts : List String) :
    chunks.foldl streamStep (acc, sts) =
      (acc ++ String.join (chunks.map contentOf),
       sts ++ (List.range chunks.length).map
         (fun k => acc ++ String.join (((chunks.take (k+1)).map contentOf)))) := by
  induction chunks generalizing acc sts with
  | nil => simp [String.join]
  | cons c cs ih =>
      simp only [List.foldl_cons, streamStep, ih, List.map_cons, join_cons,
        List.length_cons, List.range_succ_eq_map, List.map_map]
      refine Prod.ext ?_ ?_
      · simp [String.append_assoc]
      · simp only [Function.comp]
        rw [List.append_assoc]
        congr 1
        rw [List.singleton_append]
        simp only [List.cons.injEq]
        constructor
        · simp [join_cons, join_nil, String.append_empty]
        · apply List.map_congr_left
          intro k hk
          simp only [Function.comp_apply, List.take_succ_cons, List.map_cons,
            join_cons]
          exact String.append_assoc _ _ _

/-- Association-list lookup misses exactly the keys outside the map. -/
theorem lookup_none_iff (l : List (String × List String)) (k : String) :
    l.lookup k = none ↔ k ∉ l.map Prod.fst := by
  induction l with
  | nil => simp [List.lookup]
  | cons a t ih =>
      by_cases h : k = a.1
      · subst h
        simp [List.lookup]
      · obtain ⟨a1, a2⟩ := a
        simp only [List.lookup, List.map_cons, List.mem_cons]
        rw [beq_false_of_ne h]
        simp [ih, h]

/-- A successful association-list lookup returns an entry of the
list. -/
theorem lookup_mem_entries (l : List (String × List String)) (k : String)
    (v : List String) (h : l.lookup k = some v) : (k, v) ∈ l := by
  induction l with
  | nil => simp [List.lookup] at h
  | cons a t ih =>
      by_cases hk : k = a.1
      · subst hk
        obtain ⟨a1, a2⟩ := a
        simp [List.lookup] at h
        simp [h]
      · obtain ⟨a1, a2⟩ := a
        simp only [List.lookup] at h
        rw [beq_false_of_ne hk] at h
        simp [ih h]

/-! ### Claim theorems -/

/-- Claim C9: for every request whose url is absent (or empty, which
the JavaScript falsiness check treats the same) or fails to parse, the
/api/test handler answers 400, and the response is independent of both
engine outcomes, so neither engine result is consulted. -/
theorem invalid_url_rejected_before_engines
    (url : Option String) (urlValid : String → Bool)
    (e1 e1' : SettledOutcome AxeResult) (e2 e2' : SettledOutcome Pa11yResult)
    (h : ∀ u, url = some u → u = "" ∨ urlValid u = false) :
    statusOf (handleTest url urlValid e1 e2) = 400 ∧
    handleTest url urlValid e1 e2 = handleTest url urlValid e1' e2' := by
  cases url with
  | none => exact ⟨rfl, rfl⟩
  | some u =>
      rcases h u rfl with h1 | h1
      · subst h1
        exact ⟨rfl, rfl⟩
      · unfold handleTest
        by_cases hu : u = ""
        · subst hu
          exact ⟨rfl, rfl⟩
        · simp [hu, h1, statusOf]

/-- Witness for C9 at a concrete malformed request. -/
theorem invalid_url_rejected_before_engines_witness :
    statusOf (handleTest (some "not a url") (fun _ => false)
      (Except.ok ⟨[], []⟩) (Except.ok ⟨[], none⟩)) = 400 ∧
    handleTest (some "not a url") (fun _ => false)
      (Except.ok ⟨[], []⟩) (Except.ok ⟨[], none⟩) =
    handleTest (some "not a url") (fun _ => false)
      (Except.error (some "axe crash")) (Except.error none) :=
  invalid_url_rejected_before_engines (some "not a url") (fun _ => false)
    (Except.ok ⟨[], []⟩) (Except.error (some "axe crash"))
    (Except.ok ⟨[], none⟩) (Except.error none)
    (by intro u hu; cases hu; exact Or.inr rfl)

/-- Counterexample to claim C1: at a concrete request where both
engines fail, the handler returns status 200 with the ordinary report
shape, both sentinel slots, and an all-zero summary; no error status is
surfaced even though both failure reasons exist. -/
theorem both_fail_counterexample :
    statusOf (handleTest (some "https://example.com") (fun _ => true)
      (Except.error (some "axe navigation failed"))
      (Except.error (some "pa11y timed out"))) = 200 ∧
    handleTest (some "https://example.com") (fun _ => true)
      (Except.error (some "axe navigation failed"))
      (Except.error (some "pa11y timed out")) =
      TestResponse.ok
        ⟨some "Axe-core test failed", some "axe navigation failed", [], []⟩
        ⟨some "Pa11y test failed", some "pa11y timed out", [], some []⟩
        ⟨0, 0, 0⟩ := by
  constructor <;> rfl

/-- Claim C1 (amended): for every valid-URL request in which both
engines fail with any rejection reasons (present, absent or empty),
the handler returns a 200 response whose two slots carry the fixed
error texts and each failure reason message, with the fixed fallback
text substituted when a message is absent or empty, with empty
violation and issue lists and an all-zero summary; no ScanFailed or
500 error is raised (the allSettled join absorbs both rejections). -/
theorem both_fail_returns_zero_report (u : String) (r1 r2 : Option String)
    (urlValid : String → Bool) (hu : u ≠ "") (hv : urlValid u = true) :
    handleTest (some u) urlValid (Except.error r1) (Except.error r2) =
      TestResponse.ok
        ⟨some "Axe-core test failed", some (orDefault r1 "Unknown error"),
          [], []⟩
        ⟨some "Pa11y test failed", some (orDefault r2 "Unknown error"),
          [], some []⟩
        ⟨0, 0, 0⟩ ∧
    statusOf (handleTest (some u) urlValid (Except.error r1)
      (Except.error r2)) = 200 := by
  unfold handleTest
  constructor
  · simp [hu, hv, processAxe, processPa11y, mkSummary]
  · simp [hu, hv, statusOf]

/-- Witness for the amended C1, at concrete nonempty failure reasons
(where the details are the reasons themselves) and at an absent and an
empty reason (where the details are the fixed fallback text). -/
theorem both_fail_returns_zero_report_witness :
    (handleTest (some "https://a.test") (fun _ => true)
      (Except.error (some "net err")) (Except.error (some "timeout")) =
      TestResponse.ok
        ⟨some "Axe-core test failed", some "net err", [], []⟩
        ⟨some "Pa11y test failed", some "timeout", [], some []⟩
        ⟨0, 0, 0⟩ ∧
    statusOf (handleTest (some "https://a.test") (fun _ => true)
      (Except.error (some "net err"))
      (Except.error (some "timeout"))) = 200) ∧
    handleTest (some "https://a.test") (fun _ => true)
      (Except.error none) (Except.error (some "")) =
      TestResponse.ok
        ⟨some "Axe-core test failed", some "Unknown error", [], []⟩
        ⟨some "Pa11y test failed", some "Unknown error", [], some []⟩
        ⟨0, 0, 0⟩ :=
  ⟨both_fail_returns_zero_report "https://a.test" (some "net err")
      (some "timeout") (fun _ => true) (by decide) rfl,
   (both_fail_returns_zero_report "https://a.test" none (some "")
      (fun _ => true) (by decide) rfl).1⟩

/-- Claim C6: every pa11y issue whose type is in the domain of the
fixed severity mapping normalizes to exactly one violation, whose
severity is exactly the mapped one and whose single affected node is
built from the issue selector and context. -/
theorem pa11y_issue_normalization (issue : Pa11yIssue) (sev : String)
    (h : severityMapSpec issue.type = some sev) :
    normalizeB issue =
      { id := issue.code, description := issue.message, impact := some sev,
        nodes := some [⟨some issue.selector, some issue.context⟩],
        context := none } := by
  unfold severityMapSpec at h
  split_ifs at h with h1 h2 h3
  · injection h with h
    subst h
    simp [normalizeB, h1]
  · injection h with h
    subst h
    simp [normalizeB, h1, h2]
  · injection h with h
    subst h
    simp [normalizeB, h1, h2, h3]

/-- Witness for C6 at a concrete warning issue. -/
theorem pa11y_issue_normalization_witness :
    normalizeB ⟨"H1", "Heading missing", "warning", "h1", "<h1></h1>"⟩ =
      { id := "H1", description := "Heading missing", impact := some "serious",
        nodes := some [⟨some "h1", some "<h1></h1>"⟩], context := none } :=
  pa11y_issue_normalization ⟨"H1", "Heading missing", "warning", "h1", "<h1></h1>"⟩
    "serious" (by decide)

/-- A violation whose nodes field is present but holds the empty list. -/
def emptyNodesViolation : ViolationJS :=
  ⟨"custom-rule", "violation arriving with an empty nodes array",
    some "minor", some [], none⟩

/-- Counterexample to claim C5: a violation arriving with an explicitly
empty nodes list iterates zero display nodes; no single-element
placeholder is synthesized, because an empty array is truthy in
JavaScript, so the fallback of violation.nodes or [violation] is not
taken. -/
theorem displayed_nodes_counterexample :
    emptyNodesViolation.nodes = some [] ∧
    displayedNodes emptyNodesViolation = [] := ⟨rfl, rfl⟩

/-- Claim C5 (amended): the per-node display sequence is empty exactly
when the violation arrives with an explicitly empty nodes list; an
absent nodes field yields the single-element fallback holding the
violation itself, and a present nodes list is iterated at its own
length. -/
theorem displayed_nodes_amended (v : ViolationJS) :
    (displayedNodes v = [] ↔ v.nodes = some []) ∧
    (v.nodes = none → displayedNodes v = [DisplayNode.fromViolation v]) ∧
    (∀ ns, v.nodes = some ns → (displayedNodes v).length = ns.length) := by
  obtain ⟨i, d, imp, nodes, ctx⟩ := v
  cases nodes with
  | none => simp [displayedNodes]
  | some ns => simp [displayedNodes]

/-- A violation with no nodes field at all. -/
def noNodesViolation : ViolationJS :=
  ⟨"region", "raw violation object without nodes", none, none, some "<div>"⟩

/-- A violation with two nodes. -/
def twoNodesViolation : ViolationJS :=
  ⟨"image-alt", "Images must have alternate text", some "critical",
    some [⟨some "img.hero", some "<img src=hero.png>"⟩,
          ⟨some "img.logo", some "<img src=logo.png>"⟩], none⟩

/-- Witness for the amended C5 at the two fallback shapes. -/
theorem displayed_nodes_amended_witness :
    displayedNodes noNodesViolation =
      [DisplayNode.fromViolation noNodesViolation] ∧
    (displayedNodes twoNodesViolation).length = 2 :=
  ⟨(displayed_nodes_amended noNodesViolation).2.1 rfl,
   (displayed_nodes_amended twoNodesViolation).2.2 _ rfl⟩

/-- Counterexample to claim C4: when the streaming path completes
having delivered no chunks, getAISolution returns the empty string,
even though a complete non-streaming response was available; the fixed
placeholder is not substituted on this path. -/
theorem remediation_empty_return_counterexample :
    getAISolutionText (StreamOutcome.completed [])
      (Except.ok ⟨some "complete fallback text"⟩) = Except.ok "" := rfl

/-- Claim C4 (amended): on stream completion the returned text is
exactly the streamed accumulation, which may be empty; on a stream
error with a successful non-streaming fallback, the returned text is
the fallback content with the fixed placeholder substituted exactly
when that content is absent or empty (the falsy-default check), so the
fallback path never returns an empty value; the result after a stream
error never depends on the partially streamed chunks, so no partial
text leaks into it. -/
theorem remediation_text_amended (chunks pre pre2 : List StreamChunk)
    (m m2 : String) (r : ChatResponse)
    (fb : Except String ChatResponse) :
    getAISolutionText (StreamOutcome.completed chunks) fb =
      Except.ok (accumulate chunks) ∧
    getAISolutionText (StreamOutcome.errored pre m) (Except.ok r) =
      Except.ok (orDefault r.content "No response generated") ∧
    getAISolutionText (StreamOutcome.errored pre m) fb =
      getAISolutionText (StreamOutcome.errored pre2 m2) fb ∧
    getAISolutionText (StreamOutcome.errored pre m) (Except.ok r) ≠
      Except.ok "" := by
  refine ⟨rfl, rfl, ?_, ?_⟩
  · cases fb <;> rfl
  · show Except.ok (orDefault r.content "No response generated") ≠ _
    simp only [ne_eq, Except.ok.injEq]
    unfold orDefault
    cases hc : r.content with
    | none => decide
    | some s =>
        by_cases hs : s = "" <;> simp [hs]

/-- Claim C8: for every sequence of streamed chunks, the published
intermediate states are exactly the successive prefixes of the chunk
concatenation, one per chunk in order, and the final returned value of
the completed streaming path is the full concatenation. -/
theorem stream_states_are_prefixes (chunks : List StreamChunk)
    (fb : Except String ChatResponse) :
    (streamRun chunks).2 =
      (List.range chunks.length).map
        (fun k => String.join (((chunks.take (k+1)).map contentOf))) ∧
    (streamRun chunks).1 = String.join (chunks.map contentOf) ∧
    getAISolutionText (StreamOutcome.completed chunks) fb =
      Except.ok (String.join (chunks.map contentOf)) := by
  have h := streamRun_foldl chunks "" []
  unfold streamRun
  rw [h]
  refine ⟨by simp [String.empty_append], by simp [String.empty_append], ?_⟩
  show Except.ok (accumulate chunks) = _
  rw [accumulate_eq_join]

/-- Claim C10: the audience classification is the pure association-list
lookup of the static table; it misses exactly the rule ids outside the
table (absent, never an error), and every hit is an entry of the table,
so equal inputs always give equal outputs. -/
theorem classify_static_lookup (ruleId : String) :
    (getTargetAudience ruleId = none ↔ ruleId ∉ audienceMap.map Prod.fst) ∧
    (∀ labels, getTargetAudience ruleId = some labels →
      (ruleId, labels) ∈ audienceMap) := by
  constructor
  · exact lookup_none_iff audienceMap ruleId
  · intro labels h
    exact lookup_mem_entries audienceMap ruleId labels h

/-- Witness for C10: a known rule id resolves to its table entry, and
an unknown rule id resolves to absent. -/
theorem classify_static_lookup_witness :
    ("color-contrast",
      ["Visual impairments", "Low vision", "Color blindness"]) ∈ audienceMap ∧
    getTargetAudience "unknown-rule-id" = none :=
  ⟨(classify_static_lookup "color-contrast").2
      ["Visual impairments", "Low vision", "Color blindness"] rfl,
   (classify_static_lookup "unknown-rule-id").1.mpr (by decide)⟩

/-- A concrete color-contrast violation used to exhibit the two cache
key schemes. -/
def contrastViolation : ViolationJS :=
  ⟨"color-contrast", "Ensure elements have sufficient contrast",
    some "serious", some [⟨some "body", some "<div>text</div>"⟩], none⟩

set_option maxRecDepth 4096

/-- Counterexample to claim C3: in one successful remediation run for
this violation at node index 0, the streaming write goes to the key
built from the rule id and the 20-character description prefix, while
the cache-guard read and the final write use the key built from the
rule id and the node index; the two keys differ, so not every read and
write of the cache uses the single key the claim describes. -/
theorem cache_key_counterexample :
    (solutionWrites contrastViolation 0
      (StreamOutcome.completed [⟨some "Fix the contrast."⟩])
      (Except.ok ⟨none⟩)).map Prod.fst =
      ["color-contrast-Ensure elements have", "color-contrast-0"] ∧
    solutionReadKey contrastViolation 0 = "color-contrast-0" ∧
    ("color-contrast-Ensure elements have" : String) ≠ "color-contrast-0" := by
  refine ⟨?_, rfl, by decide⟩
  decide

/-- Claim C3 (amended): every cache access of one handleGetSolution run
uses one of exactly two key schemes: all streaming-path and fallback
writes inside getAISolution use the rule id joined with the first 20
characters of the description (no node index), and the guard read plus
the single final write use the rule id joined with the node index (no
description prefix); the write-key sequence is some number of
getAISolution keys followed by exactly one handleGetSolution key. -/
theorem cache_key_amended (v : ViolationJS) (nodeIndex : Nat)
    (stream : StreamOutcome) (fallback : Except String ChatResponse) :
    (∃ n, (solutionWrites v nodeIndex stream fallback).map Prod.fst =
      List.replicate n (getAISolutionKey v.id v.description) ++
        [handleGetSolutionKey v.id nodeIndex]) ∧
    solutionReadKey v nodeIndex = handleGetSolutionKey v.id nodeIndex := by
  refine ⟨?_, rfl⟩
  cases stream with
  | completed chunks =>
      refine ⟨(streamStatesOf (StreamOutcome.completed chunks)).length, ?_⟩
      simp [solutionWrites, getAISolutionText, List.map_map, Function.comp,
        List.map_const']
  | errored pre m =>
      cases fallback with
      | ok r =>
          refine ⟨(streamStatesOf (StreamOutcome.errored pre m)).length + 1, ?_⟩
          simp [solutionWrites, getAISolutionText, List.map_map, Function.comp,
            List.map_const', List.replicate_succ']
      | error e =>
          refine ⟨(streamStatesOf (StreamOutcome.errored pre m)).length, ?_⟩
          simp [solutionWrites, getAISolutionText, List.map_map, Function.comp,
            List.map_const']

/-- Claim C7: the merged violation list is the axe violations followed
by the normalized pa11y issues, its length is the sum of the two source
lengths, each axe violation keeps its index, each normalized issue sits
at its source index shifted by the axe length, and the merged pass list
is the same A-then-B concatenation. -/
theorem merged_order (axe : ProcessedAxe) (pa11y : ProcessedPa11y)
    (s : SummaryJS) :
    ((formatResults axe pa11y s).violations).length =
      axe.violations.length + pa11y.issues.length ∧
    (∀ i, i < axe.violations.length →
      (formatResults axe pa11y s).violations[i]? = axe.violations[i]?) ∧
    (∀ j, (formatResults axe pa11y s).violations[axe.violations.length + j]? =
      (pa11y.issues[j]?).map normalizeB) ∧
    (formatResults axe pa11y s).passes = axe.passes ++ pa11y.passes.getD [] := by
  refine ⟨by simp [formatResults], ?_, ?_, rfl⟩
  · intro i hi
    simp only [formatResults]
    rw [List.getElem?_append]
    simp [hi]
  · intro j
    simp only [formatResults]
    rw [List.getElem?_append]
    simp [List.getElem?_map]

/-- A concrete processed axe slot with one critical violation. -/
def sampleAxeProcessed : ProcessedAxe :=
  ⟨none, none,
   [⟨"image-alt", "Images must have alternate text", some "critical",
     some [⟨some "img", some "<img>"⟩], none⟩], []⟩

/-- A concrete processed pa11y slot with one warning issue. -/
def samplePa11yProcessed : ProcessedPa11y :=
  ⟨none, none, [⟨"H1", "Heading missing", "warning", "h1", "<h1>"⟩], none⟩

/-- Witness for C7: the two-element merged list keeps the axe violation
first and the normalized pa11y issue second. -/
theorem merged_order_witness :
    (formatResults sampleAxeProcessed samplePa11yProcessed
      ⟨1, 1, 0⟩).violations[0]? =
      some ⟨"image-alt", "Images must have alternate text", some "critical",
        some [⟨some "img", some "<img>"⟩], none⟩ ∧
    (formatResults sampleAxeProcessed samplePa11yProcessed
      ⟨1, 1, 0⟩).violations[1]? =
      some (normalizeB ⟨"H1", "Heading missing", "warning", "h1", "<h1>"⟩) := by
  have h := merged_order sampleAxeProcessed samplePa11yProcessed ⟨1, 1, 0⟩
  constructor
  · rw [h.2.1 0 (by decide)]
    rfl
  · have h2 := h.2.2.1 0
    exact h2

/-- The normalized impact is critical exactly for type error. -/
theorem normalizeB_impact_critical (i : Pa11yIssue) :
    (normalizeB i).impact = some "critical" ↔ i.type = "error" := by
  simp only [normalizeB, Option.some.injEq]
  by_cases h1 : i.type = "error"
  · simp [h1]
  · by_cases h2 : i.type = "warning" <;> simp [h1, h2]

/-- The normalized impact is serious exactly for type warning. -/
theorem normalizeB_impact_serious (i : Pa11yIssue) :
    (normalizeB i).impact = some "serious" ↔ i.type = "warning" := by
  simp only [normalizeB, Option.some.injEq]
  by_cases h1 : i.type = "error"
  · simp [h1]
  · by_cases h2 : i.type = "warning" <;> simp [h1, h2]

/-- For an issue whose type is one of the three recognized ones, the
normalized impact is moderate exactly for type notice. -/
theorem normalizeB_impact_moderate (i : Pa11yIssue)
    (h : i.type = "error" ∨ i.type = "warning" ∨ i.type = "notice") :
    (normalizeB i).impact = some "moderate" ↔ i.type = "notice" := by
  simp only [normalizeB, Option.some.injEq]
  rcases h with h | h | h <;> simp [h]

/-- Counting three pairwise-exclusive predicates over one list: the sum
is at most the length, with equality when the predicates cover every
element. -/
theorem countP_three (l : List α) (p1 p2 p3 : α → Bool)
    (h12 : ∀ a ∈ l, p1 a = true → p2 a = false)
    (h13 : ∀ a ∈ l, p1 a = true → p3 a = false)
    (h23 : ∀ a ∈ l, p2 a = true → p3 a = false) :
    List.countP p1 l + List.countP p2 l + List.countP p3 l ≤ l.length ∧
    ((∀ a ∈ l, p1 a = true ∨ p2 a = true ∨ p3 a = true) →
      List.countP p1 l + List.countP p2 l + List.countP p3 l = l.length) := by
  induction l with
  | nil => simp
  | cons a t ih =>
      have ha : a ∈ a :: t := List.mem_cons_self a t
      obtain ⟨ihle, iheq⟩ :=
        ih (fun x hx h => h12 x (List.mem_cons_of_mem a hx) h)
          (fun x hx h => h13 x (List.mem_cons_of_mem a hx) h)
          (fun x hx h => h23 x (List.mem_cons_of_mem a hx) h)
      simp only [List.countP_cons, List.length_cons]
      constructor
      · cases hp1 : p1 a <;> cases hp2 : p2 a <;> cases hp3 : p3 a <;>
          simp [hp1, hp2, hp3] <;>
          first
            | omega
            | (have hx := h12 a ha hp1; rw [hp2] at hx; exact Bool.noConfusion hx)
            | (have hx := h13 a ha hp1; rw [hp3] at hx; exact Bool.noConfusion hx)
            | (have hx := h23 a ha hp2; rw [hp3] at hx; exact Bool.noConfusion hx)
      · intro hcov
        have heqt := iheq (fun x hx => hcov x (List.mem_cons_of_mem a hx))
        have hcova := hcov a ha
        cases hp1 : p1 a <;> cases hp2 : p2 a <;> cases hp3 : p3 a <;>
          simp [hp1, hp2, hp3] at hcova ⊢ <;>
          first
            | omega
            | (have hx := h12 a ha hp1; rw [hp2] at hx; exact Bool.noConfusion hx)
            | (have hx := h13 a ha hp1; rw [hp3] at hx; exact Bool.noConfusion hx)
            | (have hx := h23 a ha hp2; rw [hp3] at hx; exact Bool.noConfusion hx)

/-- The summary as the server computes it for a request where both
engines fulfilled: composition of the allSettled processing and the
summary block. -/
def serverSummary (A : AxeResult) (B : Pa11yResult) : SummaryJS :=
  mkSummary (processAxe (Except.ok A)) (processPa11y (Except.ok B))

/-- The merged violation list the frontend builds from that same
response body: composition of the processing and formattedResults. -/
def mergedViolations (A : AxeResult) (B : Pa11yResult) : List ViolationJS :=
  (formatResults (processAxe (Except.ok A)) (processPa11y (Except.ok B))
    (serverSummary A B)).violations

/-- A scan result with a single minor-impact axe violation. -/
def minorAxeResult : AxeResult :=
  ⟨[⟨"tabindex", "Avoid positive tabindex values", some "minor",
     some [⟨some "a.nav", some "<a tabindex=1>"⟩], none⟩], []⟩

/-- A pa11y result with no issues. -/
def emptyPa11yResult : Pa11yResult := ⟨[], none⟩

/-- Counterexample to claim C2: for a scan with one minor-impact
violation and no pa11y issues, the merged list has one violation whose
severity minor is one of the four recognized severities, yet the server
summary record carries no minor counter at all and its three counters
sum to zero, so the summary does not count a recognized severity and
the claimed equality of the four-bucket sum with the violation count
fails. -/
theorem summary_minor_counterexample :
    serverSummary minorAxeResult emptyPa11yResult = ⟨0, 0, 0⟩ ∧
    (mergedViolations minorAxeResult emptyPa11yResult).length = 1 ∧
    countImpact (mergedViolations minorAxeResult emptyPa11yResult) "minor" = 1 := by
  refine ⟨by decide, rfl, by decide⟩

/-- Claim C2 (amended): when both engines fulfilled and every pa11y
issue type is recognized, the three counters of the server summary
each equal the number of merged violations of that severity (B-origin
issues counted via the fixed mapping), although the summary is computed
per source rather than by one fold over the merged list; the summary
has no minor counter, so critical plus serious plus moderate is at most
the merged length, with equality when every merged violation has
severity critical, serious or moderate; minor-impact violations are
counted in no bucket. -/
theorem summary_counts_amended (A : AxeResult) (B : Pa11yResult)
    (hB : ∀ i ∈ B.issues,
      i.type = "error" ∨ i.type = "warning" ∨ i.type = "notice") :
    (serverSummary A B).critical =
      countImpact (mergedViolations A B) "critical" ∧
    (serverSummary A B).serious =
      countImpact (mergedViolations A B) "serious" ∧
    (serverSummary A B).moderate =
      countImpact (mergedViolations A B) "moderate" ∧
    (serverSummary A B).critical + (serverSummary A B).serious +
      (serverSummary A B).moderate ≤ (mergedViolations A B).length ∧
    ((∀ v ∈ mergedViolations A B,
        v.impact = some "critical" ∨ v.impact = some "serious" ∨
        v.impact = some "moderate") →
      (serverSummary A B).critical + (serverSummary A B).serious +
        (serverSummary A B).moderate = (mergedViolations A B).length) := by
  have hm : mergedViolations A B = A.violations ++ B.issues.map normalizeB := rfl
  have hs : serverSummary A B =
      ⟨countImpact A.violations "critical" + countType B.issues "error",
       countImpact A.violations "serious" + countType B.issues "warning",
       countImpact A.violations "moderate" + countType B.issues "notice"⟩ := rfl
  have hcrit : countImpact (mergedViolations A B) "critical" =
      countImpact A.violations "critical" + countType B.issues "error" := by
    rw [hm]
    unfold countImpact countType
    rw [List.filter_append, List.length_append]
    congr 1
    rw [← List.countP_eq_length_filter, ← List.countP_eq_length_filter,
      List.countP_map]
    apply List.countP_congr
    intro i hi
    simp [Function.comp, normalizeB_impact_critical]
  have hser : countImpact (mergedViolations A B) "serious" =
      countImpact A.violations "serious" + countType B.issues "warning" := by
    rw [hm]
    unfold countImpact countType
    rw [List.filter_append, List.length_append]
    congr 1
    rw [← List.countP_eq_length_filter, ← List.countP_eq_length_filter,
      List.countP_map]
    apply List.countP_congr
    intro i hi
    simp [Function.comp, normalizeB_impact_serious]
  have hmod : countImpact (mergedViolations A B) "moderate" =
      countImpact A.violations "moderate" + countType B.issues "notice" := by
    rw [hm]
    unfold countImpact countType
    rw [List.filter_append, List.length_append]
    congr 1
    rw [← List.countP_eq_length_filter, ← List.countP_eq_length_filter,
      List.countP_map]
    apply List.countP_congr
    intro i hi
    simp [Function.comp, normalizeB_impact_moderate i (hB i hi)]
  have hsum : (serverSummary A B).critical + (serverSummary A B).serious +
      (serverSummary A B).moderate =
      countImpact (mergedViolations A B) "critical" +
      countImpact (mergedViolations A B) "serious" +
      countImpact (mergedViolations A B) "moderate" := by
    rw [hs, hcrit, hser, hmod]
  have h3 := countP_three (mergedViolations A B)
    (fun v => decide (v.impact = some "critical"))
    (fun v => decide (v.impact = some "serious"))
    (fun v => decide (v.impact = some "moderate"))
    (by intro v _ h
        simp only [decide_eq_true_eq] at h
        simp [h])
    (by intro v _ h
        simp only [decide_eq_true_eq] at h
        simp [h])
    (by intro v _ h
        simp only [decide_eq_true_eq] at h
        simp [h])
  have hcp : countImpact (mergedViolations A B) "critical" +
      countImpact (mergedViolations A B) "serious" +
      countImpact (mergedViolations A B) "moderate" =
      List.countP (fun v => decide (v.impact = some "critical"))
        (mergedViolations A B) +
      List.countP (fun v => decide (v.impact = some "serious"))
        (mergedViolations A B) +
      List.countP (fun v => decide (v.impact = some "moderate"))
        (mergedViolations A B) := by
    unfold countImpact
    rw [← List.countP_eq_length_filter, ← List.countP_eq_length_filter,
      ← List.countP_eq_length_filter]
  refine ⟨by rw [hs]; exact hcrit.symm, by rw [hs]; exact hser.symm,
    by rw [hs]; exact hmod.symm, ?_, ?_⟩
  · rw [hsum, hcp]
    exact h3.1
  · intro hcov
    rw [hsum, hcp]
    exact h3.2 (by
      intro v hv
      rcases hcov v hv with h | h | h <;> simp [h])

/-- A fulfilled axe result with one critical violation, for the summary
witness. -/
def witnessAxeResult : AxeResult :=
  ⟨[⟨"image-alt", "Images must have alternate text", some "critical",
     some [⟨some "img", some "<img>"⟩], none⟩], []⟩

/-- A fulfilled pa11y result with one warning issue, for the summary
witness. -/
def witnessPa11yResult : Pa11yResult :=
  ⟨[⟨"H1", "Heading missing", "warning", "h1", "<h1>"⟩], none⟩

/-- Witness for the amended C2 at a concrete one-critical,
one-warning scan. -/
theorem summary_counts_amended_witness :
    (serverSummary witnessAxeResult witnessPa11yResult).critical =
      countImpact (mergedViolations witnessAxeResult witnessPa11yResult)
        "critical" ∧
    (serverSummary witnessAxeResult witnessPa11yResult).critical +
      (serverSummary witnessAxeResult witnessPa11yResult).serious +
      (serverSummary witnessAxeResult witnessPa11yResult).moderate =
      (mergedViolations witnessAxeResult witnessPa11yResult).length := by
  have h := summary_counts_amended witnessAxeResult witnessPa11yResult
    (by decide)
  exact ⟨h.1, h.2.2.2.2 (by decide)⟩
